import Mathlib

/-!
Shallow embedding of `src/lucet-idl/src/rust/mod.rs` (the `RustGenerator`
backend of the lucet-idl compiler), together with models of the small
pieces of the crate it uses that are not under `src/` (the type
vocabulary of `types.rs`, the pretty-printing sink, and the driver loop
described by the specification).
-/

set_option autoImplicit false

namespace LucetIdl

/-- Identifiers (`Ident` in `types.rs`): opaque unique handles for declared
types, used as the key of the `defined` registry. Modelled as `Nat`. -/
abbrev Ident := Nat

/-- The closed enumeration of primitive kinds (`AtomType` in `types.rs`):
boolean, unsigned and signed integers of widths 8/16/32/64, and floats of
widths 32/64, exactly the constructors matched by `atom_name`. -/
inductive AtomType where
  | Bool
  | U8
  | U16
  | U32
  | U64
  | I8
  | I16
  | I32
  | I64
  | F32
  | F64
  deriving DecidableEq

/-- A reference to a type (`DataTypeRef` in `types.rs`): either another
declaration by identity, or a primitive. -/
inductive DataTypeRef where
  | Defined (id : Ident)
  | Atom (a : AtomType)
  deriving DecidableEq

/-- Modelled from the spec: attributes attached to declarations; the
generator binds them as `_attrs` and never reads them. -/
structure Attr where
  val : String
  deriving DecidableEq

/-- A struct member: the generator reads `m.type_` and `m.name`. -/
structure StructMember where
  type_ : DataTypeRef
  name : String
  deriving DecidableEq

/-- An enum member (variant): the generator reads `m.name`. -/
structure EnumMember where
  name : String
  deriving DecidableEq

/-- The tagged declaration payload (`DataType` in `types.rs`): alias,
struct, or enum, each carrying the attribute list the generator ignores. -/
inductive DataType where
  | Alias (to_ : DataTypeRef) (attrs : List Attr)
  | Struct (members : List StructMember) (attrs : List Attr)
  | Enum (members : List EnumMember) (attrs : List Attr)
  deriving DecidableEq

/-- The declared name wrapper: the generator reads `data_type_entry.name.name`. -/
structure Name where
  name : String
  deriving DecidableEq

/-- `Named<T>` pairs an `Ident` and a declared `Name` with an entity. -/
structure Named (T : Type) where
  id : Ident
  name : Name
  entity : T
  deriving DecidableEq

/-- Modelled from the spec: a function signature declaration (`FuncDecl` in
`types.rs`, not under `src/`); `gen_function` never inspects it. -/
structure FuncDecl where
  decl_name : String
  deriving DecidableEq

/-- The compilation unit: ordered declarations, read-only to the generator. -/
structure Module where
  data_types : List (Named DataType)
  func_decls : List (Named FuncDecl)
  deriving DecidableEq

/-- Modelled from the spec: target architecture / word-size selection
(`Target` in `target.rs`, not under `src/`); the Rust backend stores it but
never reads it. -/
structure Target where
  arch : String
  deriving DecidableEq

/-- Modelled from the spec: backend configuration (`BackendConfig`, not
under `src/`); stored but never read by the Rust backend. -/
structure BackendConfig where
  host : String
  deriving DecidableEq

/-! ### The naming transform (model of `heck`'s `to_camel_case` / `to_snake_case`) -/

/-- Push the current (reversed) word accumulator onto the word list. -/
def pushWord (acc : List Char) (ws : List String) : List String :=
  if acc.isEmpty then ws else ws ++ [String.mk acc.reverse]

/-- Word splitter underlying both casing transforms, modelling `heck`'s
boundary rules for ASCII identifiers: non-alphanumeric characters separate
words and are dropped; a lowercase-or-digit to uppercase transition starts
a new word; an uppercase run followed by a lowercase letter ends just
before its last uppercase letter. -/
def splitGo : List Char → Option Char → List Char → List String → List String
  | [], _, acc, ws => pushWord acc ws
  | c :: rest, prev, acc, ws =>
    if c.isAlphanum then
      let boundary :=
        match prev with
        | some p =>
          ((p.isLower || p.isDigit) && c.isUpper) ||
            (p.isUpper && c.isUpper &&
              (match rest with
               | r :: _ => r.isLower
               | [] => false))
        | none => false
      if boundary then
        splitGo rest (some c) [c] (pushWord acc ws)
      else
        splitGo rest (some c) (c :: acc) ws
    else
      splitGo rest none [] (pushWord acc ws)

/-- Split a declared name into its constituent words. -/
def splitWords (s : String) : List String :=
  splitGo s.data none [] []

/-- Capitalize one word: first character uppercased, the rest lowercased. -/
def capitalizeWord (w : String) : String :=
  match w.data with
  | [] => ""
  | c :: cs => String.mk (c.toUpper :: cs.map Char.toLower)

/-- Model of `heck::CamelCase`'s `to_camel_case`: every word capitalized,
no separators. -/
def toCamelCase (s : String) : String :=
  String.join ((splitWords s).map capitalizeWord)

/-- Model of `heck::SnakeCase`'s `to_snake_case`: every word lowercased,
words joined by underscores. -/
def toSnakeCase (s : String) : String :=
  String.intercalate "_" ((splitWords s).map (fun w => String.mk (w.data.map Char.toLower)))

/-! ### The output sink (model of `pretty_writer.rs`, not under `src/`) -/

/-- One item of sink output: a text line at an indentation depth, or an
end-of-block spacing marker (`eob`). -/
inductive OutItem where
  | line (indent : Nat) (text : String)
  | eob
  deriving DecidableEq

/-- Modelled from the spec: the indentation-aware output sink
(`PrettyWriter` in `pretty_writer.rs`, not under `src/`): line-oriented
writes at the current indentation depth, `new_block` raises the depth,
`eob` records an end-of-block spacing marker. The emitted items are kept
in order in `out`. -/
structure PrettyWriter where
  indent : Nat
  out : List OutItem
  deriving DecidableEq

/-- A fresh writer over an empty sink. -/
def PrettyWriter.new : PrettyWriter := { indent := 0, out := [] }

/-- `write_line`: append one line at the current indentation depth. -/
def PrettyWriter.write_line (w : PrettyWriter) (s : String) : PrettyWriter :=
  { w with out := w.out ++ [OutItem.line w.indent s] }

/-- `eob`: append an end-of-block spacing marker. -/
def PrettyWriter.eob (w : PrettyWriter) : PrettyWriter :=
  { w with out := w.out ++ [OutItem.eob] }

/-- `new_block`: a writer over the same sink at one deeper indentation. -/
def PrettyWriter.new_block (w : PrettyWriter) : PrettyWriter :=
  { w with indent := w.indent + 1 }

/-! ### Failures -/

/-- Outcomes by which a generator operation can abort. A Rust panic
(`expect`, `unreachable!`) is a fatal invariant violation carrying the
panic message; `unimplemented!()` is the not-implemented condition. -/
inductive GenFailure where
  | fatal (msg : String)
  | notImplemented
  deriving DecidableEq

/-- Result of a generator operation: the updated generator, or an abort. -/
abbrev GenResult (α : Type) := Except GenFailure α

/-! ### The generator (`RustGenerator` in `rust/mod.rs`) -/

/-- The registry (`defined: HashMap<Ident, String>`), modelled as an
association list where `insert` prepends and lookup takes the first
match, reproducing `HashMap::insert`'s overwrite semantics. -/
def mapGet (l : List (Ident × String)) (k : Ident) : Option String :=
  match l with
  | [] => none
  | p :: rest => if p.1 = k then some p.2 else mapGet rest k

/-- The generator state for the Rust backend: configuration, the
`defined` registry, and the output writer. -/
structure RustGenerator where
  target : Target
  backend_config : BackendConfig
  defined : List (Ident × String)
  w : PrettyWriter
  deriving DecidableEq

/-- `RustGenerator::new`: fresh registry, fresh writer. -/
def RustGenerator.new (target : Target) (backend_config : BackendConfig) : RustGenerator :=
  { target := target, backend_config := backend_config,
    defined := [], w := PrettyWriter.new }

/-- `RustGenerator::define_name`: camel-case the declared name, insert it
into the registry under the entry's `Ident`, and return it. -/
def RustGenerator.define_name (g : RustGenerator) (data_type_entry : Named DataType) :
    String × RustGenerator :=
  let typename := toCamelCase data_type_entry.name.name
  (typename, { g with defined := (data_type_entry.id, typename) :: g.defined })

/-- `RustGenerator::atom_name`: the fixed mapping from primitive kinds to
Rust type tokens. Note `I8 => "i32"`, exactly as in the source. -/
def RustGenerator.atom_name : AtomType → String
  | .Bool => "bool"
  | .U8 => "u8"
  | .U16 => "u16"
  | .U32 => "u32"
  | .U64 => "u64"
  | .I8 => "i32"
  | .I16 => "i16"
  | .I32 => "i32"
  | .I64 => "i64"
  | .F32 => "f32"
  | .F64 => "f64"

/-- `RustGenerator::get_defined_name`: a `Defined` reference is looked up
in the registry, panicking (`expect("definition exists")`) when absent; an
`Atom` reference delegates to `atom_name`. -/
def RustGenerator.get_defined_name (g : RustGenerator) (data_type_ref : DataTypeRef) :
    GenResult String :=
  match data_type_ref with
  | .Defined id =>
    match mapGet g.defined id with
    | some n => .ok n
    | none => .error (.fatal "definition exists")
  | .Atom a => .ok (RustGenerator.atom_name a)

/-! ### Debug rendering (model of the derived `Debug` impls used by `gen_type_header`) -/

/-- Modelled Debug rendering of an `AtomType`. -/
def debugAtomType : AtomType → String
  | .Bool => "Bool"
  | .U8 => "U8"
  | .U16 => "U16"
  | .U32 => "U32"
  | .U64 => "U64"
  | .I8 => "I8"
  | .I16 => "I16"
  | .I32 => "I32"
  | .I64 => "I64"
  | .F32 => "F32"
  | .F64 => "F64"

/-- Modelled Debug rendering of a `DataTypeRef`. -/
def debugDataTypeRef : DataTypeRef → String
  | .Defined i => "Defined(" ++ toString i ++ ")"
  | .Atom a => "Atom(" ++ debugAtomType a ++ ")"

/-- Modelled Debug rendering of an attribute. -/
def debugAttr (a : Attr) : String :=
  "Attr(\"" ++ a.val ++ "\")"

/-- Modelled Debug rendering of a list. -/
def debugList {α : Type} (f : α → String) (l : List α) : String :=
  "[" ++ String.intercalate ", " (l.map f) ++ "]"

/-- Modelled Debug rendering of a struct member. -/
def debugStructMember (m : StructMember) : String :=
  "StructMember \x7b type_: " ++ debugDataTypeRef m.type_ ++
    ", name: \"" ++ m.name ++ "\" \x7d"

/-- Modelled Debug rendering of an enum member. -/
def debugEnumMember (m : EnumMember) : String :=
  "EnumMember \x7b name: \"" ++ m.name ++ "\" \x7d"

/-- Modelled Debug rendering of a `DataType`. -/
def debugDataType : DataType → String
  | .Alias pointee attrs =>
    "Alias \x7b to: " ++ debugDataTypeRef pointee ++
      ", attrs: " ++ debugList debugAttr attrs ++ " \x7d"
  | .Struct members attrs =>
    "Struct \x7b members: " ++ debugList debugStructMember members ++
      ", attrs: " ++ debugList debugAttr attrs ++ " \x7d"
  | .Enum members attrs =>
    "Enum \x7b members: " ++ debugList debugEnumMember members ++
      ", attrs: " ++ debugList debugAttr attrs ++ " \x7d"

/-- Modelled Debug rendering of a `Named<DataType>`. -/
def debugNamedDataType (d : Named DataType) : String :=
  "Named \x7b id: " ++ toString d.id ++ ", name: Name \x7b name: \"" ++
    d.name.name ++ "\" \x7d, entity: " ++ debugDataType d.entity ++ " \x7d"

/-! ### The `Generator` trait implementation for `RustGenerator` -/

/-- `gen_type_header`: an end-of-block marker, then the doc-comment line
`/// {name}: {entry:?}`. No registry mutation; never fails. -/
def RustGenerator.gen_type_header (g : RustGenerator) (_module : Module)
    (data_type_entry : Named DataType) : GenResult RustGenerator :=
  .ok { g with
        w := (g.w.eob).write_line
          ("/// " ++ data_type_entry.name.name ++ ": " ++ debugNamedDataType data_type_entry) }

/-- `gen_alias`: destructure the `Alias` variant (`unreachable!()`
otherwise), define the alias's own name FIRST, then resolve the pointee,
then emit `type {typename} = {pointee_name};` followed by `eob`. -/
def RustGenerator.gen_alias (g : RustGenerator) (_module : Module)
    (data_type_entry : Named DataType) : GenResult RustGenerator :=
  match data_type_entry.entity with
  | .Alias pointee _attrs =>
    let p := g.define_name data_type_entry
    let typename := p.1
    let g := p.2
    match g.get_defined_name pointee with
    | .ok pointee_name =>
      .ok { g with w := (g.w.write_line ("type " ++ typename ++ " = " ++ pointee_name ++ ";")).eob }
    | .error e => .error e
  | _ => .error (.fatal "unreachable")

/-- The member loop of `gen_struct`: for each member in order, resolve its
type and write `{snake_name}: {type},` into the block writer; the loop
aborts at the first unresolvable member. -/
def writeMembers (g : RustGenerator) (w : PrettyWriter) :
    List StructMember → GenResult PrettyWriter
  | [] => .ok w
  | m :: rest =>
    match g.get_defined_name m.type_ with
    | .ok tyname =>
      writeMembers g (w.write_line (toSnakeCase m.name ++ ": " ++ tyname ++ ",")) rest
    | .error e => .error e

/-- `gen_struct`: destructure the `Struct` variant (`unreachable!()`
otherwise), insert the camel-cased typename into the registry BEFORE any
member is resolved, emit `#[repr(C)]` and the `struct {typename} {`
header, the members in declared order in a nested block, then `}` and
`eob` at the original depth. -/
def RustGenerator.gen_struct (g : RustGenerator) (_module : Module)
    (data_type_entry : Named DataType) : GenResult RustGenerator :=
  match data_type_entry.entity with
  | .Struct named_members _attrs =>
    let typename := toCamelCase data_type_entry.name.name
    let g := { g with defined := (data_type_entry.id, typename) :: g.defined }
    let g := { g with
               w := (g.w.write_line "#[repr(C)]").write_line
                 ("struct " ++ typename ++ " \x7b") }
    match writeMembers g g.w.new_block named_members with
    | .ok wb =>
      .ok { g with
            w := (({ indent := g.w.indent, out := wb.out } : PrettyWriter).write_line "\x7d").eob }
    | .error e => .error e
  | _ => .error (.fatal "unreachable")

/-- The variant loop of `gen_enum`: each variant name camel-cased and
written as `{Name},` into the block writer, in declared order. -/
def writeVariants (w : PrettyWriter) : List EnumMember → PrettyWriter
  | [] => w
  | m :: rest => writeVariants (w.write_line (toCamelCase m.name ++ ",")) rest

/-- `gen_enum`: destructure the `Enum` variant (`unreachable!()`
otherwise), insert the camel-cased typename into the registry, emit
`#[repr(C)]`, the derive line, the `enum {typename} {` header, the
variants in declared order in a nested block, then `}` and `eob`. -/
def RustGenerator.gen_enum (g : RustGenerator) (_module : Module)
    (data_type_entry : Named DataType) : GenResult RustGenerator :=
  match data_type_entry.entity with
  | .Enum named_members _attrs =>
    let typename := toCamelCase data_type_entry.name.name
    let g := { g with defined := (data_type_entry.id, typename) :: g.defined }
    let g := { g with
               w := ((g.w.write_line "#[repr(C)]").write_line
                 "#[derive(Debug, PartialEq, Eq, PartialOrd, Ord)]").write_line
                 ("enum " ++ typename ++ " \x7b") }
    let wb := writeVariants g.w.new_block named_members
    .ok { g with
          w := (({ indent := g.w.indent, out := wb.out } : PrettyWriter).write_line "\x7d").eob }
  | _ => .error (.fatal "unreachable")

/-- `gen_function`: the body is `unimplemented!()` — the not-implemented
condition is signalled before anything is written to the sink. -/
def RustGenerator.gen_function (_g : RustGenerator) (_module : Module)
    (_func_decl_entry : Named FuncDecl) : GenResult RustGenerator :=
  .error .notImplemented

/-! ### The driver loop -/

/-- Modelled from the spec: the Driver (not under `src/`) invokes, for one
data-type declaration, `gen_type_header` and then the operation matching
the declaration's variant. -/
def runDecl (g : RustGenerator) (m : Module) (d : Named DataType) : GenResult RustGenerator :=
  match g.gen_type_header m d with
  | .error e => .error e
  | .ok g1 =>
    match d.entity with
    | .Alias _ _ => g1.gen_alias m d
    | .Struct _ _ => g1.gen_struct m d
    | .Enum _ _ => g1.gen_enum m d

/-- Modelled from the spec: the Driver's pass over the data-type
declarations, in the supplied order, aborting at the first failure. -/
def runDecls (m : Module) : RustGenerator → List (Named DataType) → GenResult RustGenerator
  | g, [] => .ok g
  | g, d :: rest =>
    match runDecl g m d with
    | .ok g1 => runDecls m g1 rest
    | .error e => .error e

/-- Modelled from the spec: the Driver's pass over the function
declarations, in the supplied order, aborting at the first failure. -/
def runFuncs (m : Module) : RustGenerator → List (Named FuncDecl) → GenResult RustGenerator
  | g, [] => .ok g
  | g, f :: rest =>
    match g.gen_function m f with
    | .ok g1 => runFuncs m g1 rest
    | .error e => .error e

/-- Modelled from the spec: one full generation pass — every data type in
order, then every function declaration in order. -/
def runModule (g : RustGenerator) (m : Module) : GenResult RustGenerator :=
  match runDecls m g m.data_types with
  | .ok g1 => runFuncs m g1 m.func_decls
  | .error e => .error e

/-! ### Width bookkeeping for the atomic type table -/

/-- The declared semantic bit width of each atomic kind (`none` for the
boolean kind, which has no integer/float width). -/
def declaredBits : AtomType → Option Nat
  | .Bool => none
  | .U8 => some 8
  | .U16 => some 16
  | .U32 => some 32
  | .U64 => some 64
  | .I8 => some 8
  | .I16 => some 16
  | .I32 => some 32
  | .I64 => some 64
  | .F32 => some 32
  | .F64 => some 64

/-- The bit width carried by a Rust integer/float type token (`none` for
tokens such as `bool` that carry no width). -/
def tokenBits : String → Option Nat
  | "u8" => some 8
  | "u16" => some 16
  | "u32" => some 32
  | "u64" => some 64
  | "i8" => some 8
  | "i16" => some 16
  | "i32" => some 32
  | "i64" => some 64
  | "f32" => some 32
  | "f64" => some 64
  | _ => none

/-! ### Concrete fixtures used by witnesses and counterexamples -/

/-- The enum `color { red, green, blue }` with `Ident` 0 (spec §8,
scenario 1). -/
def colorDecl : Named DataType :=
  ⟨0, ⟨"color"⟩, DataType.Enum [⟨"red"⟩, ⟨"green"⟩, ⟨"blue"⟩] []⟩

/-- A one-member struct `my_point { xCoord: F64 }` with `Ident` 3. -/
def ptDecl : Named DataType :=
  ⟨3, ⟨"my_point"⟩, DataType.Struct [⟨DataTypeRef.Atom AtomType.F64, "xCoord"⟩] []⟩

/-- A struct whose two members both reference the struct's own `Ident` 4. -/
def selfStruct : Named DataType :=
  ⟨4, ⟨"tree_node"⟩,
    DataType.Struct
      [⟨DataTypeRef.Defined 4, "leftChild"⟩, ⟨DataTypeRef.Defined 4, "rightChild"⟩] []⟩

/-- An alias whose target is its own `Ident` 2. -/
def selfAlias : Named DataType :=
  ⟨2, ⟨"weight"⟩, DataType.Alias (DataTypeRef.Defined 2) []⟩

/-- A function declaration fixture. -/
def fDecl : Named FuncDecl := ⟨9, ⟨"do_work"⟩, ⟨"do_work"⟩⟩

/-- A small module fixture. -/
def mod0 : Module := ⟨[colorDecl], []⟩

/-- A generator session for an x86-64 target. -/
def g64 : RustGenerator := RustGenerator.new ⟨"x86_64"⟩ ⟨"bindings"⟩

/-- A generator session for a wasm32 target. -/
def gWasm : RustGenerator := RustGenerator.new ⟨"wasm32"⟩ ⟨"bindings"⟩

/-! ### Registry lemmas -/

/-- A freshly inserted entry is found by lookup (insert overwrites). -/
theorem mapGet_cons_self (l : List (Ident × String)) (k : Ident) (v : String) :
    mapGet ((k, v) :: l) k = some v := by
  simp [mapGet]

/-- Insertion never removes an entry: any key present before is present
after. -/
theorem mapGet_cons_isSome (l : List (Ident × String)) (k i : Ident) (v : String)
    (h : mapGet l i ≠ none) : mapGet ((k, v) :: l) i ≠ none := by
  by_cases hk : k = i <;> simp [mapGet, hk, h]

/-- `get_defined_name` reads only the `defined` registry: two generator
states with equal registries resolve every reference identically. -/
theorem get_defined_name_congr (g₁ g₂ : RustGenerator) (r : DataTypeRef)
    (h : g₁.defined = g₂.defined) :
    g₁.get_defined_name r = g₂.get_defined_name r := by
  cases r <;> simp [RustGenerator.get_defined_name, h]

/-! ### Output characterization lemmas -/

/-- The struct member loop writes exactly one line per member, in declared
order, pairing the snake-cased member name with its resolved type. -/
theorem writeMembers_eq (g : RustGenerator) (ms : List StructMember) (tys : List String)
    (h : List.Forall₂ (fun mem ty => g.get_defined_name mem.type_ = Except.ok ty) ms tys) :
    ∀ w : PrettyWriter, writeMembers g w ms = Except.ok
      ⟨w.indent, w.out ++ List.zipWith (fun mem ty =>
        OutItem.line w.indent (toSnakeCase mem.name ++ ": " ++ ty ++ ",")) ms tys⟩ := by
  induction h with
  | nil => intro w; simp [writeMembers]
  | cons hmem _ ih =>
    intro w
    simp only [writeMembers, hmem]
    rw [ih]
    simp [PrettyWriter.write_line]

/-- The enum variant loop writes exactly one line per variant, in declared
order, each carrying the camel-cased variant name. -/
theorem writeVariants_eq (vs : List EnumMember) :
    ∀ w : PrettyWriter, writeVariants w vs =
      ⟨w.indent, w.out ++ vs.map (fun v =>
        OutItem.line w.indent (toCamelCase v.name ++ ","))⟩ := by
  induction vs with
  | nil => intro w; simp [writeVariants]
  | cons v vs ih =>
    intro w
    simp [writeVariants, ih, PrettyWriter.write_line]

/-- Full characterization of `gen_struct` on a struct declaration whose
members all resolve (against the registry already extended with the
struct's own name, as the source extends it before the member loop). -/
theorem gen_struct_eq (g : RustGenerator) (m : Module) (d : Named DataType)
    (ms : List StructMember) (attrs : List Attr) (tys : List String)
    (hd : d.entity = DataType.Struct ms attrs)
    (hres : List.Forall₂ (fun mem ty =>
      ({ g with defined := (d.id, toCamelCase d.name.name) :: g.defined } :
        RustGenerator).get_defined_name mem.type_ = Except.ok ty) ms tys) :
    g.gen_struct m d = Except.ok
      { target := g.target, backend_config := g.backend_config,
        defined := (d.id, toCamelCase d.name.name) :: g.defined,
        w := ⟨g.w.indent,
          g.w.out ++
            [OutItem.line g.w.indent "#[repr(C)]",
             OutItem.line g.w.indent ("struct " ++ toCamelCase d.name.name ++ " \x7b")] ++
            List.zipWith (fun mem ty =>
              OutItem.line (g.w.indent + 1)
                (toSnakeCase mem.name ++ ": " ++ ty ++ ",")) ms tys ++
            [OutItem.line g.w.indent "\x7d", OutItem.eob]⟩ } := by
  have hres' : List.Forall₂ (fun mem ty =>
      RustGenerator.get_defined_name
        { target := g.target, backend_config := g.backend_config,
          defined := (d.id, toCamelCase d.name.name) :: g.defined,
          w := (g.w.write_line "#[repr(C)]").write_line
            ("struct " ++ toCamelCase d.name.name ++ " \x7b") }
        mem.type_ = Except.ok ty) ms tys :=
    hres.imp (fun _ _ h => (get_defined_name_congr _ _ _ rfl).trans h)
  unfold RustGenerator.gen_struct
  rw [hd]
  dsimp only
  rw [writeMembers_eq _ _ _ hres']
  simp [PrettyWriter.write_line, PrettyWriter.eob, PrettyWriter.new_block]

/-- Full characterization of `gen_enum` on an enum declaration. -/
theorem gen_enum_eq (g : RustGenerator) (m : Module) (d : Named DataType)
    (vs : List EnumMember) (attrs : List Attr)
    (hd : d.entity = DataType.Enum vs attrs) :
    g.gen_enum m d = Except.ok
      { target := g.target, backend_config := g.backend_config,
        defined := (d.id, toCamelCase d.name.name) :: g.defined,
        w := ⟨g.w.indent,
          g.w.out ++
            [OutItem.line g.w.indent "#[repr(C)]",
             OutItem.line g.w.indent "#[derive(Debug, PartialEq, Eq, PartialOrd, Ord)]",
             OutItem.line g.w.indent ("enum " ++ toCamelCase d.name.name ++ " \x7b")] ++
            vs.map (fun v => OutItem.line (g.w.indent + 1) (toCamelCase v.name ++ ",")) ++
            [OutItem.line g.w.indent "\x7d", OutItem.eob]⟩ } := by
  unfold RustGenerator.gen_enum
  rw [hd]
  dsimp only
  rw [writeVariants_eq]
  simp [PrettyWriter.write_line, PrettyWriter.eob, PrettyWriter.new_block]

/-- Full characterization of `gen_alias` when the pointee resolves against
the registry already extended with the alias's own name (the source calls
`define_name` before `get_defined_name`). -/
theorem gen_alias_eq (g : RustGenerator) (m : Module) (d : Named DataType)
    (r : DataTypeRef) (attrs : List Attr) (pname : String)
    (hd : d.entity = DataType.Alias r attrs)
    (hres : ({ g with defined := (d.id, toCamelCase d.name.name) :: g.defined } :
      RustGenerator).get_defined_name r = Except.ok pname) :
    g.gen_alias m d = Except.ok
      { target := g.target, backend_config := g.backend_config,
        defined := (d.id, toCamelCase d.name.name) :: g.defined,
        w := ⟨g.w.indent,
          g.w.out ++
            [OutItem.line g.w.indent
              ("type " ++ toCamelCase d.name.name ++ " = " ++ pname ++ ";"),
             OutItem.eob]⟩ } := by
  unfold RustGenerator.gen_alias
  rw [hd]
  dsimp only [RustGenerator.define_name]
  rw [hres]
  simp [PrettyWriter.write_line, PrettyWriter.eob]

/-! ### Registry-extension lemmas: no operation removes entries -/

/-- A successful `gen_alias` extends the registry with exactly the alias's
own entry. -/
theorem gen_alias_ok_defined (g g' : RustGenerator) (m : Module) (d : Named DataType)
    (h : g.gen_alias m d = Except.ok g') :
    g'.defined = (d.id, toCamelCase d.name.name) :: g.defined := by
  unfold RustGenerator.gen_alias at h
  split at h
  · simp only [RustGenerator.define_name] at h
    split at h
    · injection h with h
      rw [← h]
    · exact absurd h (by simp)
  · exact absurd h (by simp)

/-- A successful `gen_struct` extends the registry with exactly the
struct's own entry. -/
theorem gen_struct_ok_defined (g g' : RustGenerator) (m : Module) (d : Named DataType)
    (h : g.gen_struct m d = Except.ok g') :
    g'.defined = (d.id, toCamelCase d.name.name) :: g.defined := by
  unfold RustGenerator.gen_struct at h
  split at h
  · simp only [PrettyWriter.new_block] at h
    split at h
    · injection h with h
      rw [← h]
    · exact absurd h (by simp)
  · exact absurd h (by simp)

/-- A successful `gen_enum` extends the registry with exactly the enum's
own entry. -/
theorem gen_enum_ok_defined (g g' : RustGenerator) (m : Module) (d : Named DataType)
    (h : g.gen_enum m d = Except.ok g') :
    g'.defined = (d.id, toCamelCase d.name.name) :: g.defined := by
  unfold RustGenerator.gen_enum at h
  split at h
  · injection h with h
    rw [← h]
  · exact absurd h (by simp)

/-- `gen_type_header` never touches the registry. -/
theorem gen_type_header_ok_defined (g g' : RustGenerator) (m : Module) (d : Named DataType)
    (h : g.gen_type_header m d = Except.ok g') : g'.defined = g.defined := by
  unfold RustGenerator.gen_type_header at h
  injection h with h
  rw [← h]

/-- `gen_function` never succeeds on this backend. -/
theorem gen_function_not_ok (g g' : RustGenerator) (m : Module) (f : Named FuncDecl) :
    g.gen_function m f ≠ Except.ok g' := by
  simp [RustGenerator.gen_function]

/-! ### Claim C1 -/

/-- Claim C1, counterexample: registering a target-host name for an
`Identifier` already present does NOT fail fatally. After the enum
`color` (`Ident` 0) has been generated once, running `gen_enum` again on
the very same declaration — which registers `Ident` 0 a second time —
returns `ok`, and a direct second `define_name` call likewise returns the
name normally. -/
theorem C1_second_define_succeeds :
    (((g64.gen_enum mod0 colorDecl).bind (fun g => g.gen_enum mod0 colorDecl)).isOk = true) ∧
    (((g64.define_name colorDecl).2.define_name colorDecl).1 = "Color") ∧
    (mapGet ((g64.define_name colorDecl).2).defined 0 = some "Color") :=
  ⟨rfl, rfl, rfl⟩

/-- Claim C1, amended: registering a target-host name for an `Identifier`
already present in the registry succeeds and overwrites (shadows) the
earlier entry — a subsequent lookup returns the newest name — and no
generator operation ever removes a registry entry: every `Identifier`
present before an operation is still present after it succeeds. -/
theorem C1_define_overwrites_never_removes (g : RustGenerator) (m : Module)
    (d d' : Named DataType) (f : Named FuncDecl) (i : Ident)
    (hi : mapGet g.defined i ≠ none) :
    ((g.define_name d').2.defined = (d'.id, toCamelCase d'.name.name) :: g.defined) ∧
    (mapGet ((g.define_name d').2).defined d'.id = some (toCamelCase d'.name.name)) ∧
    (mapGet ((g.define_name d').2).defined i ≠ none) ∧
    (∀ g', g.gen_type_header m d = Except.ok g' → mapGet g'.defined i ≠ none) ∧
    (∀ g', g.gen_alias m d = Except.ok g' → mapGet g'.defined i ≠ none) ∧
    (∀ g', g.gen_struct m d = Except.ok g' → mapGet g'.defined i ≠ none) ∧
    (∀ g', g.gen_enum m d = Except.ok g' → mapGet g'.defined i ≠ none) ∧
    (∀ g', g.gen_function m f = Except.ok g' → mapGet g'.defined i ≠ none) := by
  refine ⟨rfl, mapGet_cons_self _ _ _, mapGet_cons_isSome _ _ _ _ hi,
    fun g' h => ?_, fun g' h => ?_, fun g' h => ?_, fun g' h => ?_, fun g' h => ?_⟩
  · rw [gen_type_header_ok_defined g g' m d h]; exact hi
  · rw [gen_alias_ok_defined g g' m d h]; exact mapGet_cons_isSome _ _ _ _ hi
  · rw [gen_struct_ok_defined g g' m d h]; exact mapGet_cons_isSome _ _ _ _ hi
  · rw [gen_enum_ok_defined g g' m d h]; exact mapGet_cons_isSome _ _ _ _ hi
  · exact absurd h (gen_function_not_ok g g' m f)

/-- Claim C1, witness for the amended theorem at a concrete session in
which `Ident` 0 is already registered. -/
theorem C1_witness :
    (mapGet ((g64.define_name colorDecl).2).defined 0 ≠ none) ∧
    (mapGet (((g64.define_name colorDecl).2.define_name colorDecl).2).defined 0 =
      some (toCamelCase "color")) :=
  ⟨by decide,
    (C1_define_overwrites_never_removes (g64.define_name colorDecl).2 mod0 colorDecl
      colorDecl fDecl 0 (by decide)).2.1⟩

/-! ### Claim C2 -/

/-- Claim C2: resolving a `Defined(id)` reference while `id` is absent
from the registry fails fatally (with the `expect` message `definition
exists`) rather than producing any name, and resolving an `Atom(k)`
reference delegates to the atomic type table `atom_name`. -/
theorem C2_resolve_fatal_when_absent (g : RustGenerator) (i : Ident) (a : AtomType)
    (habs : mapGet g.defined i = none) :
    (g.get_defined_name (DataTypeRef.Defined i) =
      Except.error (GenFailure.fatal "definition exists")) ∧
    (g.get_defined_name (DataTypeRef.Atom a) = Except.ok (RustGenerator.atom_name a)) := by
  constructor
  · simp [RustGenerator.get_defined_name, habs]
  · rfl

/-- Claim C2, witness: a fresh session has `Ident` 5 unregistered, so
resolution fails fatally there and atom resolution still succeeds. -/
theorem C2_witness :
    (mapGet g64.defined 5 = none) ∧
    ((g64.get_defined_name (DataTypeRef.Defined 5) =
        Except.error (GenFailure.fatal "definition exists")) ∧
      (g64.get_defined_name (DataTypeRef.Atom AtomType.U32) =
        Except.ok (RustGenerator.atom_name AtomType.U32))) :=
  ⟨rfl, C2_resolve_fatal_when_absent g64 5 AtomType.U32 rfl⟩

/-! ### Claim C6 -/

/-- Claim C6: invoking function-declaration emission on this backend
always yields the not-implemented failure — for every generator state,
module, and `Named<FuncDecl>` — and therefore never emits any partial
output to the sink. -/
theorem C6_gen_function_not_implemented (g : RustGenerator) (m : Module)
    (f : Named FuncDecl) :
    g.gen_function m f = Except.error GenFailure.notImplemented :=
  rfl

/-- Claim C6, witness at a concrete session and function declaration. -/
theorem C6_witness :
    g64.gen_function mod0 fDecl = Except.error GenFailure.notImplemented :=
  C6_gen_function_not_implemented g64 mod0 fDecl

/-- Zipping a list against a constant list of its own length is a map. -/
theorem zipWith_replicate_right {α β γ : Type} (f : α → β → γ) (c : β) :
    ∀ l : List α, List.zipWith f l (List.replicate l.length c) = l.map (fun a => f a c)
  | [] => rfl
  | a :: l => by simp [List.replicate_succ, zipWith_replicate_right f c l]

/-! ### Claim C3 -/

/-- Claim C3: `gen_struct` emits the member fields in exactly the declared
member order (the i-th emitted member line pairs the i-th declared member
with its resolved type), and `gen_enum` emits the variants in exactly the
declared variant order; neither operation reorders them. -/
theorem C3_declared_order_preserved (g₁ g₂ : RustGenerator) (m : Module)
    (d e : Named DataType) (ms : List StructMember) (vs : List EnumMember)
    (a₁ a₂ : List Attr) (tys : List String)
    (hd : d.entity = DataType.Struct ms a₁)
    (he : e.entity = DataType.Enum vs a₂)
    (hres : List.Forall₂ (fun mem ty =>
      ({ g₁ with defined := (d.id, toCamelCase d.name.name) :: g₁.defined } :
        RustGenerator).get_defined_name mem.type_ = Except.ok ty) ms tys) :
    (∃ g', g₁.gen_struct m d = Except.ok g' ∧
      g'.w.out = g₁.w.out ++
        [OutItem.line g₁.w.indent "#[repr(C)]",
         OutItem.line g₁.w.indent ("struct " ++ toCamelCase d.name.name ++ " \x7b")] ++
        List.zipWith (fun mem ty =>
          OutItem.line (g₁.w.indent + 1) (toSnakeCase mem.name ++ ": " ++ ty ++ ",")) ms tys ++
        [OutItem.line g₁.w.indent "\x7d", OutItem.eob]) ∧
    (∃ g', g₂.gen_enum m e = Except.ok g' ∧
      g'.w.out = g₂.w.out ++
        [OutItem.line g₂.w.indent "#[repr(C)]",
         OutItem.line g₂.w.indent "#[derive(Debug, PartialEq, Eq, PartialOrd, Ord)]",
         OutItem.line g₂.w.indent ("enum " ++ toCamelCase e.name.name ++ " \x7b")] ++
        vs.map (fun v => OutItem.line (g₂.w.indent + 1) (toCamelCase v.name ++ ",")) ++
        [OutItem.line g₂.w.indent "\x7d", OutItem.eob]) :=
  ⟨⟨_, gen_struct_eq g₁ m d ms a₁ tys hd hres, by simp⟩,
   ⟨_, gen_enum_eq g₂ m e vs a₂ he, by simp⟩⟩

/-- Claim C3, witness at the concrete struct `my_point` and the concrete
enum `color`. -/
theorem C3_witness :
    (∃ g', g64.gen_struct mod0 ptDecl = Except.ok g' ∧
      g'.w.out = g64.w.out ++
        [OutItem.line g64.w.indent "#[repr(C)]",
         OutItem.line g64.w.indent ("struct " ++ toCamelCase ptDecl.name.name ++ " \x7b")] ++
        List.zipWith (fun mem ty =>
          OutItem.line (g64.w.indent + 1) (toSnakeCase mem.name ++ ": " ++ ty ++ ","))
          ([⟨DataTypeRef.Atom AtomType.F64, "xCoord"⟩] : List StructMember) ["f64"] ++
        [OutItem.line g64.w.indent "\x7d", OutItem.eob]) ∧
    (∃ g', g64.gen_enum mod0 colorDecl = Except.ok g' ∧
      g'.w.out = g64.w.out ++
        [OutItem.line g64.w.indent "#[repr(C)]",
         OutItem.line g64.w.indent "#[derive(Debug, PartialEq, Eq, PartialOrd, Ord)]",
         OutItem.line g64.w.indent ("enum " ++ toCamelCase colorDecl.name.name ++ " \x7b")] ++
        ([⟨"red"⟩, ⟨"green"⟩, ⟨"blue"⟩] : List EnumMember).map (fun v =>
          OutItem.line (g64.w.indent + 1) (toCamelCase v.name ++ ",")) ++
        [OutItem.line g64.w.indent "\x7d", OutItem.eob]) :=
  C3_declared_order_preserved g64 g64 mod0 ptDecl colorDecl
    [⟨DataTypeRef.Atom AtomType.F64, "xCoord"⟩] [⟨"red"⟩, ⟨"green"⟩, ⟨"blue"⟩] [] [] ["f64"]
    rfl rfl (List.Forall₂.cons rfl List.Forall₂.nil)

/-! ### Claim C4 -/

/-- Claim C4: `gen_struct` inserts the struct's own camel-cased name into
the registry before resolving any member type: a struct whose members all
reference the struct's own `Identifier` — absent from the registry
beforehand — still generates successfully, rendering those members with
the struct's own name; and the emitted declaration carries the explicit
C-ABI directive `#[repr(C)]` immediately before the `struct` header. -/
theorem C4_self_name_defined_first (g : RustGenerator) (m : Module) (d : Named DataType)
    (ms : List StructMember) (attrs : List Attr)
    (hd : d.entity = DataType.Struct ms attrs)
    (hself : ∀ mem ∈ ms, mem.type_ = DataTypeRef.Defined d.id)
    (_hfresh : mapGet g.defined d.id = none) :
    ∃ g', g.gen_struct m d = Except.ok g' ∧
      mapGet g'.defined d.id = some (toCamelCase d.name.name) ∧
      g'.w.out = g.w.out ++
        [OutItem.line g.w.indent "#[repr(C)]",
         OutItem.line g.w.indent ("struct " ++ toCamelCase d.name.name ++ " \x7b")] ++
        ms.map (fun mem => OutItem.line (g.w.indent + 1)
          (toSnakeCase mem.name ++ ": " ++ toCamelCase d.name.name ++ ",")) ++
        [OutItem.line g.w.indent "\x7d", OutItem.eob] := by
  have hres : List.Forall₂ (fun mem ty =>
      ({ g with defined := (d.id, toCamelCase d.name.name) :: g.defined } :
        RustGenerator).get_defined_name mem.type_ = Except.ok ty)
      ms (ms.map (fun _ => toCamelCase d.name.name)) := by
    rw [List.forall₂_map_right_iff, List.forall₂_same]
    intro mem hmem
    rw [hself mem hmem]
    simp [RustGenerator.get_defined_name, mapGet_cons_self]
  refine ⟨_, gen_struct_eq g m d ms attrs _ hd hres, mapGet_cons_self _ _ _, ?_⟩
  simp [zipWith_replicate_right]

/-- Claim C4, witness at the concrete self-referential struct
`tree_node`, whose `Ident` 4 is unregistered in the fresh session. -/
theorem C4_witness :
    (selfStruct.entity = DataType.Struct
      [⟨DataTypeRef.Defined 4, "leftChild"⟩, ⟨DataTypeRef.Defined 4, "rightChild"⟩] []) ∧
    (mapGet g64.defined 4 = none) ∧
    (∃ g', g64.gen_struct mod0 selfStruct = Except.ok g' ∧
      mapGet g'.defined 4 = some (toCamelCase selfStruct.name.name) ∧
      g'.w.out = g64.w.out ++
        [OutItem.line g64.w.indent "#[repr(C)]",
         OutItem.line g64.w.indent
           ("struct " ++ toCamelCase selfStruct.name.name ++ " \x7b")] ++
        [⟨DataTypeRef.Defined 4, "leftChild"⟩, ⟨DataTypeRef.Defined 4, "rightChild"⟩].map
          (fun mem : StructMember => OutItem.line (g64.w.indent + 1)
            (toSnakeCase mem.name ++ ": " ++ toCamelCase selfStruct.name.name ++ ",")) ++
        [OutItem.line g64.w.indent "\x7d", OutItem.eob]) :=
  ⟨rfl, rfl,
    C4_self_name_defined_first g64 mod0 selfStruct
      [⟨DataTypeRef.Defined 4, "leftChild"⟩, ⟨DataTypeRef.Defined 4, "rightChild"⟩] []
      rfl (by decide) rfl⟩

/-! ### Claim C5 -/

/-- Claim C5, code evaluation at the failing input `color { red, green,
blue }`: the emitted representation directive is the hardcoded line
`#[repr(C)]` — no integer token from the atomic type table — and the
output is byte-identical for two different target configurations, so the
discriminant representation is not chosen from the atomic type table
based on configuration as the specification (and the source's own comment
about a native-typed typedef) requires. -/
theorem C5_enum_repr_is_hardcoded :
    ((g64.gen_enum mod0 colorDecl).map (fun g => g.w.out) =
      Except.ok
        [OutItem.line 0 "#[repr(C)]",
         OutItem.line 0 "#[derive(Debug, PartialEq, Eq, PartialOrd, Ord)]",
         OutItem.line 0 "enum Color \x7b",
         OutItem.line 1 "Red,", OutItem.line 1 "Green,", OutItem.line 1 "Blue,",
         OutItem.line 0 "\x7d", OutItem.eob]) ∧
    ((g64.gen_enum mod0 colorDecl).map (fun g => g.w.out) =
      (gWasm.gen_enum mod0 colorDecl).map (fun g => g.w.out)) :=
  ⟨rfl, rfl⟩

/-! ### Claim C7 -/

/-- Claim C7: the naming transform is a deterministic function of the
declared name and its role — `define_name` yields the same registered
type name for equal declared names whatever the rest of the generator
state, type names and enum variant names are rendered by the
word-capitalized no-separator transform `toCamelCase`, struct field names
by the lowercase-with-underscores transform `toSnakeCase` — as the
concrete renderings at the end illustrate. -/
theorem C7_naming_deterministic_per_role (g₁ g₂ : RustGenerator) (d₁ d₂ : Named DataType)
    (hsame : d₁.name.name = d₂.name.name) :
    ((g₁.define_name d₁).1 = (g₂.define_name d₂).1) ∧
    ((g₁.define_name d₁).1 = toCamelCase d₁.name.name) ∧
    (∀ (g : RustGenerator) (m : Module) (e : Named DataType)
        (vs : List EnumMember) (attrs : List Attr),
      e.entity = DataType.Enum vs attrs →
      ∃ g', g.gen_enum m e = Except.ok g' ∧
        g'.w.out = g.w.out ++
          [OutItem.line g.w.indent "#[repr(C)]",
           OutItem.line g.w.indent "#[derive(Debug, PartialEq, Eq, PartialOrd, Ord)]",
           OutItem.line g.w.indent ("enum " ++ toCamelCase e.name.name ++ " \x7b")] ++
          vs.map (fun v => OutItem.line (g.w.indent + 1) (toCamelCase v.name ++ ",")) ++
          [OutItem.line g.w.indent "\x7d", OutItem.eob]) ∧
    (∀ (g : RustGenerator) (m : Module) (e : Named DataType) (ms : List StructMember)
        (attrs : List Attr) (tys : List String),
      e.entity = DataType.Struct ms attrs →
      List.Forall₂ (fun mem ty =>
        ({ g with defined := (e.id, toCamelCase e.name.name) :: g.defined } :
          RustGenerator).get_defined_name mem.type_ = Except.ok ty) ms tys →
      ∃ g', g.gen_struct m e = Except.ok g' ∧
        g'.w.out = g.w.out ++
          [OutItem.line g.w.indent "#[repr(C)]",
           OutItem.line g.w.indent ("struct " ++ toCamelCase e.name.name ++ " \x7b")] ++
          List.zipWith (fun mem ty =>
            OutItem.line (g.w.indent + 1) (toSnakeCase mem.name ++ ": " ++ ty ++ ",")) ms tys ++
          [OutItem.line g.w.indent "\x7d", OutItem.eob]) ∧
    (toCamelCase "my_point" = "MyPoint" ∧ toSnakeCase "MyPoint" = "my_point" ∧
      toCamelCase "color" = "Color" ∧ toSnakeCase "pointX" = "point_x") := by
  refine ⟨?_, rfl, fun g m e vs attrs he => ?_, fun g m e ms attrs tys he hres => ?_,
    by decide, by decide, by decide, by decide⟩
  · simp [RustGenerator.define_name, hsame]
  · exact ⟨_, gen_enum_eq g m e vs attrs he, by simp⟩
  · exact ⟨_, gen_struct_eq g m e ms attrs tys he hres, by simp⟩

/-- Claim C7, witness: two sessions over different targets register the
same name for the declared name `color`, matching `toCamelCase`. -/
theorem C7_witness :
    (colorDecl.name.name = colorDecl.name.name) ∧
    ((g64.define_name colorDecl).1 = (gWasm.define_name colorDecl).1) ∧
    ((g64.define_name colorDecl).1 = toCamelCase "color") :=
  ⟨rfl, (C7_naming_deterministic_per_role g64 gWasm colorDecl colorDecl rfl).1,
    (C7_naming_deterministic_per_role g64 gWasm colorDecl colorDecl rfl).2.1⟩

/-! ### Claim C8 -/

/-- Claim C8: the atomic type mapping is total — every `AtomType` yields a
non-empty target token — and the signed 8-bit kind is the unique kind
whose token width differs from its declared width: `I8` maps to the
32-bit token `i32`, while every other kind maps to a token of its own
declared width. -/
theorem C8_atom_mapping_total_one_widened :
    (∀ a : AtomType, 0 < (RustGenerator.atom_name a).length) ∧
    (RustGenerator.atom_name AtomType.I8 = "i32" ∧
      declaredBits AtomType.I8 = some 8 ∧
      tokenBits (RustGenerator.atom_name AtomType.I8) = some 32) ∧
    (∀ a : AtomType,
      tokenBits (RustGenerator.atom_name a) ≠ declaredBits a ↔ a = AtomType.I8) :=
  ⟨fun a => by cases a <;> decide, ⟨rfl, rfl, rfl⟩, fun a => by cases a <;> decide⟩

/-- Claim C8, witness: the non-emptiness and the width dichotomy at two
concrete kinds. -/
theorem C8_witness :
    (0 < (RustGenerator.atom_name AtomType.U16).length) ∧
    (tokenBits (RustGenerator.atom_name AtomType.I8) ≠ declaredBits AtomType.I8 ↔
      AtomType.I8 = AtomType.I8) ∧
    (tokenBits (RustGenerator.atom_name AtomType.I16) ≠ declaredBits AtomType.I16 ↔
      AtomType.I16 = AtomType.I8) :=
  ⟨C8_atom_mapping_total_one_widened.1 AtomType.U16,
    C8_atom_mapping_total_one_widened.2.2 AtomType.I8,
    C8_atom_mapping_total_one_widened.2.2 AtomType.I16⟩

/-! ### Claim C9 -/

/-- Claim C9: a full generation pass is deterministic — two generator
sessions created from the same target and backend configuration produce
byte-identical output (the same ordered sequence of sink items) when run
over the same module. -/
theorem C9_generation_deterministic (t : Target) (c : BackendConfig) (m : Module)
    (g₁ g₂ : RustGenerator)
    (h₁ : g₁ = RustGenerator.new t c) (h₂ : g₂ = RustGenerator.new t c) :
    (runModule g₁ m).map (fun g => g.w.out) = (runModule g₂ m).map (fun g => g.w.out) := by
  rw [h₁, h₂]

/-- Claim C9, witness at a concrete target, configuration, and module. -/
theorem C9_witness :
    (g64 = RustGenerator.new ⟨"x86_64"⟩ ⟨"bindings"⟩) ∧
    ((runModule g64 mod0).map (fun g => g.w.out) =
      (runModule g64 mod0).map (fun g => g.w.out)) :=
  ⟨rfl, C9_generation_deterministic ⟨"x86_64"⟩ ⟨"bindings"⟩ mod0 g64 g64 rfl rfl⟩

/-! ### Claim C10 -/

/-- Claim C10: `gen_alias` registers the alias's own camel-cased name
before resolving the aliased target, so an alias whose target is
`Defined` at its own `Identifier` — absent from the registry beforehand —
succeeds and emits the self-referential declaration `type N = N;` instead
of failing fatally on an unresolved reference. -/
theorem C10_self_alias_succeeds (g : RustGenerator) (m : Module) (d : Named DataType)
    (attrs : List Attr)
    (hd : d.entity = DataType.Alias (DataTypeRef.Defined d.id) attrs)
    (_hfresh : mapGet g.defined d.id = none) :
    ∃ g', g.gen_alias m d = Except.ok g' ∧
      mapGet g'.defined d.id = some (toCamelCase d.name.name) ∧
      g'.w.out = g.w.out ++
        [OutItem.line g.w.indent
          ("type " ++ toCamelCase d.name.name ++ " = " ++ toCamelCase d.name.name ++ ";"),
         OutItem.eob] := by
  refine ⟨_, gen_alias_eq g m d (DataTypeRef.Defined d.id) attrs
    (toCamelCase d.name.name) hd ?_, mapGet_cons_self _ _ _, by simp⟩
  simp [RustGenerator.get_defined_name, mapGet_cons_self]

/-- Claim C10, witness at the concrete self-referential alias `weight`
(`Ident` 2), unregistered in the fresh session. -/
theorem C10_witness :
    (selfAlias.entity = DataType.Alias (DataTypeRef.Defined 2) []) ∧
    (mapGet g64.defined 2 = none) ∧
    (∃ g', g64.gen_alias mod0 selfAlias = Except.ok g' ∧
      mapGet g'.defined 2 = some (toCamelCase selfAlias.name.name) ∧
      g'.w.out = g64.w.out ++
        [OutItem.line g64.w.indent
          ("type " ++ toCamelCase selfAlias.name.name ++ " = " ++
            toCamelCase selfAlias.name.name ++ ";"),
         OutItem.eob]) :=
  ⟨rfl, rfl, C10_self_alias_succeeds g64 mod0 selfAlias [] rfl rfl⟩

end LucetIdl
